import Mathlib

/-!
Verification development for the baserow-emailer batch job.

The Python sources (`app/emailer.py`, `app/send_email.py`, `app/main.py`) are
shallowly embedded below: pure helpers become Lean functions, the network and
row-store effects become explicit boolean outcome oracles, and raised Python
exceptions become `Except.error` values.  Field values coming back from the
row store are modelled as `Option String` (`none` is a blank/`null` value).
-/

namespace BaserowEmailer

/-- One entry of a single-select field's `options_details` list: a dictionary
holding the option's `id` and its displayed `value`. -/
structure SelectOption where
  oid : String
  value : String
deriving Repr, DecidableEq

/-- The schema information the pipeline reads for one field of a table:
`source_table.fields[name].TYPE` and `.options_details`. -/
structure FieldInfo where
  TYPE : String
  options_details : List SelectOption
deriving Repr, DecidableEq

/-- A source-table row: its `id` and its field values (`none` models a
blank/`null` cell; for the trigger field a present value is an option id). -/
structure Row where
  rid : Nat
  values : List (String × Option String)
deriving Repr, DecidableEq

/-- `row[field]` on the fetched snapshot: the first matching field value
(`none` when the field is blank or absent from the snapshot). -/
def row_get (r : Row) (f : String) : Option String :=
  match r.values.find? (fun p => p.1 = f) with
  | none => none
  | some p => p.2

/-- A source table as the pipeline sees it: its fields (in schema order) and
its rows.  `field_names` is derived from `fields`, as in the client API. -/
structure Table where
  fields : List (String × FieldInfo)
  rows : List Row
deriving Repr, DecidableEq

/-- `source_table.field_names`. -/
def Table.field_names (t : Table) : List String :=
  t.fields.map (fun p => p.1)

/-- `source_table.fields[name]` lookup. -/
def table_lookup_field (t : Table) (name : String) : Option FieldInfo :=
  match t.fields.find? (fun p => p.1 = name) with
  | none => none
  | some p => some p.2

/-- One emailer configuration record, with the fields `process_emailer_config`
reads.  String-valued cells that may be absent are `Option String`. -/
structure Configuration where
  source_table_id : Nat
  trigger_field : String
  trigger_on_blank : Bool
  recipient_field : String
  cc_recipients : Option String
  message_template_fields : Option String
  message_template_url : Option String
  subject : Option String
deriving Repr, DecidableEq

/-- Python `str.split(sep)` for a one-character separator, over the string's
characters: the separators cut the character list into groups, and the
result always has one more group than there are separators (so consecutive
separators produce empty groups). -/
def split_chars (sep : Char) : List Char → List (List Char)
  | [] => [[]]
  | c :: rest =>
      match split_chars sep rest with
      | [] => [[c]]
      | grp :: gs => if c = sep then [] :: grp :: gs else (c :: grp) :: gs

/-- Python `str.strip()`: remove leading and trailing whitespace. -/
def strip_chars (l : List Char) : List Char :=
  ((l.dropWhile Char.isWhitespace).reverse.dropWhile Char.isWhitespace).reverse

/-- `comma_delimited_to_list` from `emailer.py`: a falsy input (`None` or the
empty string) yields `[]`; otherwise `input_string.split(",")` with each
item stripped.  Empty items produced by the split are kept. -/
def comma_delimited_to_list (input_string : Option String) : List String :=
  match input_string with
  | none => []
  | some s =>
      if s = "" then []
      else (split_chars ',' s.data).map (fun cs => String.mk (strip_chars cs))

/-- `get_option_id` from `emailer.py`: build a value-indexed dictionary of the
options (a later duplicate value overwrites an earlier one, as in a Python
dict comprehension), look the requested value up, and raise `ValueError`
(modelled as `Except.error`) when the option is absent or its id is falsy. -/
def get_option_id (options_details : List SelectOption) (option_value : String) :
    Except String String :=
  let option_id :=
    options_details.foldl
      (fun acc o => if o.value = option_value then some o.oid else acc) none
  match option_id with
  | none => Except.error ("option not found: " ++ option_value)
  | some oid =>
      if oid = "" then Except.error ("option not found: " ++ option_value)
      else Except.ok oid

/-- `key.replace(" ", "_")` as used by `create_email_message`: every space
character of the key, leading and trailing included, becomes an underscore. -/
def replace_spaces (s : String) : String :=
  String.mk (s.data.map (fun c => if c = ' ' then '_' else c))

/-- Python dict insertion: an existing key keeps its position but takes the
new value; a new key is appended. -/
def dict_insert (d : List (String × Option String)) (k : String) (v : Option String) :
    List (String × Option String) :=
  if d.any (fun p => p.1 = k) then
    d.map (fun p => if p.1 = k then (k, v) else p)
  else d ++ [(k, v)]

/-- Dictionary lookup on an association list built by `dict_insert`. -/
def dict_get (d : List (String × Option String)) (k : String) : Option (Option String) :=
  match d.find? (fun p => p.1 = k) with
  | none => none
  | some p => some p.2

/-- The variable-renaming dict comprehension of `create_email_message`:
`{key.replace(" ", "_"): value for key, value in variables.items()}`.
Keys are rewritten in iteration order; when two rewritten keys collide the
later entry's value overwrites the earlier one. -/
def rename_variables (vars : List (String × Option String)) :
    List (String × Option String) :=
  vars.foldl (fun acc kv => dict_insert acc (replace_spaces kv.1) kv.2) []

/-- The response handling of `send_email` in `send_email.py`, as a function of
the mail API response's status code: status 202 is logged as success; any
other status is logged as a failure and `response.raise_for_status()` is
called, which raises only for 4xx/5xx statuses (the raised error is wrapped
into `Exception("Failed to send email.")`).  A non-202 status outside
400..599 falls through `raise_for_status` and the function returns normally. -/
def send_email_status (status_code : Nat) : Except String Unit :=
  if status_code = 202 then Except.ok ()
  else if 400 ≤ status_code ∧ status_code < 600 then
    Except.error "Failed to send email."
  else Except.ok ()

/-- The collapse step of `get_active_configurations`, one configuration value:
a list takes its first element, anything else passes through. A Baserow cell
value is either a primitive or a list of values. -/
inductive BValue where
  | prim : String → BValue
  | arr : List BValue → BValue

/-- One configuration record as returned by `row.to_dict()`. -/
abbrev RowDict := List (String × BValue)

/-- The inner loop of `get_active_configurations` over one record: each
list-valued field is replaced by its first element, a list-valued field that
is empty raises `ValueError`, and every other field passes through. -/
def collapse_row : RowDict → Except String RowDict
  | [] => Except.ok []
  | (k, BValue.arr []) :: _ =>
      Except.error ("Expected a non-empty list for key " ++ k)
  | (k, BValue.arr (x :: _)) :: rest =>
      (collapse_row rest).map (fun r => (k, x) :: r)
  | (k, BValue.prim v) :: rest =>
      (collapse_row rest).map (fun r => (k, BValue.prim v) :: r)

/-- `get_active_configurations`, applied to the rows the Active-filter query
returned: zero rows yield `ok []`; otherwise every row is collapsed and the
first empty-list field makes the whole call raise. -/
def get_active_configurations : List RowDict → Except String (List RowDict)
  | [] => Except.ok []
  | row :: rest =>
      (collapse_row row).bind
        (fun r => (get_active_configurations rest).map (fun rs => r :: rs))

/-- Whether a configuration record has a field whose stored value is an
empty list (the case `get_active_configurations` raises on). -/
def has_empty_list_field (row : RowDict) : Bool :=
  row.any (fun p =>
    match p.2 with
    | BValue.arr [] => true
    | _ => false)

/-- The value `get_active_configurations` keeps for one field: a non-empty
list collapses to its first element, anything else passes through. -/
def collapse_field : BValue → BValue
  | BValue.arr (x :: _) => x
  | v => v

/-- The outcome oracle for one row's external effects: whether the claim
write, the template fetch/render, the mail send, and the final status write
succeed (a `false` models the corresponding Python call raising). -/
structure RowEffects where
  claim_ok : Bool
  render_ok : Bool
  send_ok : Bool
  final_ok : Bool
deriving Repr, DecidableEq

/-- What one iteration of the row loop produced: the row's final trigger
value, the successful trigger-field writes in order, and whether
`send_email` ran to completion. -/
structure RowOutcome where
  final : Option String
  writes : List String
  email_sent : Bool
deriving Repr, DecidableEq

/-- The per-row transition of `process_emailer_config` (the body of the
`for row in queued_rows` loop), given the resolved In Progress and Sent
option ids, the row's trigger and recipient values, and the effect oracle:
claim the row, render the message, parse recipients, send, finalize; every
failure logs and moves to the next row, leaving the writes made so far. -/
def process_row (inprogress_id sent_id : String)
    (trigger_val recipient_val : Option String) (eff : RowEffects) : RowOutcome :=
  if ¬ eff.claim_ok then
    { final := trigger_val, writes := [], email_sent := false }
  else if ¬ eff.render_ok then
    { final := some inprogress_id, writes := [inprogress_id], email_sent := false }
  else if (comma_delimited_to_list recipient_val).isEmpty then
    { final := some inprogress_id, writes := [inprogress_id], email_sent := false }
  else if ¬ eff.send_ok then
    { final := some inprogress_id, writes := [inprogress_id], email_sent := false }
  else if ¬ eff.final_ok then
    { final := some inprogress_id, writes := [inprogress_id], email_sent := true }
  else
    { final := some sent_id, writes := [inprogress_id, sent_id], email_sent := true }

/-- How one invocation of `process_emailer_config` ended: an early logged
return (missing field, wrong trigger type, missing template URL), a raised
`ValueError` from option resolution (re-raised to the runner), or a
completed row loop. -/
inductive ConfigResult where
  | fieldMissing : String → ConfigResult
  | wrongTriggerType : ConfigResult
  | optionError : String → ConfigResult
  | templateMissing : ConfigResult
  | done : ConfigResult
deriving Repr, DecidableEq

/-- Everything observable about one `process_emailer_config` run: how it
ended, the resolved (Queued, In Progress, Sent) option ids when resolution
completed, the rows the query fetched, and each fetched row's outcome. -/
structure RunOutcome where
  result : ConfigResult
  resolved : Option (String × String × String)
  fetched : List Row
  row_results : List (Row × RowOutcome)
deriving Repr, DecidableEq

/-- The row filter built at lines 170-184 of `emailer.py`: trigger equals the
Queued option id, OR (when `trigger_on_blank`) the trigger field is empty. -/
def row_filter (trigger_field queued_id : String) (trigger_on_blank : Bool)
    (r : Row) : Bool :=
  (row_get r trigger_field = some queued_id) ||
    (trigger_on_blank && ((row_get r trigger_field).getD "" = ""))

/-- `process_emailer_config` from `emailer.py`: validate the referenced
fields against the table schema, check the trigger field type, resolve the
three status option ids (a missing option raises out of `get_option_id`),
fetch the Queued/blank rows, check the template URL, then run the per-row
transition over every fetched row. -/
def process_emailer_config (t : Table) (cfg : Configuration)
    (eff : Nat → RowEffects) : RunOutcome :=
  match (cfg.trigger_field :: cfg.recipient_field ::
      comma_delimited_to_list cfg.message_template_fields).find?
      (fun f => ! (t.field_names.contains f)) with
  | some f => { result := ConfigResult.fieldMissing f, resolved := none,
                fetched := [], row_results := [] }
  | none =>
    match table_lookup_field t cfg.trigger_field with
    | none => { result := ConfigResult.fieldMissing cfg.trigger_field,
                resolved := none, fetched := [], row_results := [] }
    | some fi =>
      if fi.TYPE ≠ "single_select" then
        { result := ConfigResult.wrongTriggerType, resolved := none,
          fetched := [], row_results := [] }
      else
        match get_option_id fi.options_details "Queued" with
        | Except.error e => { result := ConfigResult.optionError e,
                              resolved := none, fetched := [], row_results := [] }
        | Except.ok queued_id =>
          match get_option_id fi.options_details "In Progress" with
          | Except.error e => { result := ConfigResult.optionError e,
                                resolved := none, fetched := [], row_results := [] }
          | Except.ok inprogress_id =>
            match get_option_id fi.options_details "Sent" with
            | Except.error e => { result := ConfigResult.optionError e,
                                  resolved := none, fetched := [], row_results := [] }
            | Except.ok sent_id =>
              match cfg.message_template_url with
              | none =>
                  { result := ConfigResult.templateMissing,
                    resolved := some (queued_id, inprogress_id, sent_id),
                    fetched := t.rows.filter
                      (row_filter cfg.trigger_field queued_id cfg.trigger_on_blank),
                    row_results := [] }
              | some u =>
                if u = "" then
                  { result := ConfigResult.templateMissing,
                    resolved := some (queued_id, inprogress_id, sent_id),
                    fetched := t.rows.filter
                      (row_filter cfg.trigger_field queued_id cfg.trigger_on_blank),
                    row_results := [] }
                else
                  { result := ConfigResult.done,
                    resolved := some (queued_id, inprogress_id, sent_id),
                    fetched := t.rows.filter
                      (row_filter cfg.trigger_field queued_id cfg.trigger_on_blank),
                    row_results := (t.rows.filter
                      (row_filter cfg.trigger_field queued_id cfg.trigger_on_blank)).map
                      (fun r =>
                        (r, process_row inprogress_id sent_id
                              (row_get r cfg.trigger_field)
                              (row_get r cfg.recipient_field) (eff r.rid))) }

/-- The six environment variables `main` reads with `os.getenv` (a `none`
models an unset variable). -/
structure Env where
  client_id : Option String
  tenant_id : Option String
  baserow_url : Option String
  baserow_api_token : Option String
  config_table_id : Option String
  error_table_id : Option String
deriving Repr, DecidableEq

/-- Python falsiness of an `os.getenv` result: `None` or the empty string. -/
def getenv_falsy : Option String → Bool
  | none => true
  | some s => s = ""

/-- The guard `not any([client_id, tenant_id, baserow_url, baserow_api_token,
config_table_id, error_table_id])` in `main`: true exactly when every one of
the six values is falsy. -/
def missing_env (e : Env) : Bool :=
  [e.client_id, e.tenant_id, e.baserow_url, e.baserow_api_token,
    e.config_table_id, e.error_table_id].all getenv_falsy

/-- The externally observable events of one `main` run, in order. -/
inductive RunEvent where
  | fatalEnvError : RunEvent
  | authAttempted : RunEvent
  | fatalAuthError : RunEvent
  | loadAttempted : RunEvent
  | fatalLoadError : RunEvent
  | processed : Nat → RunEvent
  | configFailed : Nat → RunEvent
deriving Repr, DecidableEq

/-- The `for configuration in active_configurations` loop of `main`:
`process_emailer_config` is invoked for each configuration in turn, and an
exception raised by it is caught and logged inside the loop, so the loop
continues with the next configuration. -/
def runner_loop (fails : Nat → Bool) : List Nat → List RunEvent
  | [] => []
  | i :: rest =>
      RunEvent.processed i ::
        ((if fails i then [RunEvent.configFailed i] else []) ++ runner_loop fails rest)

/-- `main` from `main.py` as an event trace: check the environment guard
(raising `ValueError` when all six variables are falsy), authenticate, load
the active configurations, then run the per-configuration loop.  `auth_ok`
and `load_ok` model whether `authenticate` and `get_active_configurations`
raise; `fails i` models whether processing configuration `i` raises. -/
def main_run (e : Env) (auth_ok load_ok : Bool) (nconfigs : Nat)
    (fails : Nat → Bool) : List RunEvent :=
  if missing_env e then [RunEvent.fatalEnvError]
  else
    RunEvent.authAttempted ::
      (if ¬ auth_ok then [RunEvent.fatalAuthError]
       else
         RunEvent.loadAttempted ::
           (if ¬ load_ok then [RunEvent.fatalLoadError]
            else runner_loop fails (List.range nconfigs)))

/-! ## Concrete fixtures used to instantiate the theorems -/

/-- A trigger field carrying all three canonical status options. -/
def sample_options : List SelectOption :=
  [⟨"q1", "Queued"⟩, ⟨"p1", "In Progress"⟩, ⟨"s1", "Sent"⟩]

/-- A queued row with one recipient. -/
def sample_row : Row := ⟨1, [("Status", some "q1"), ("Rcpt", some "a@x.com")]⟩

/-- A source table with a well-formed single-select trigger field and one
queued row. -/
def sample_table : Table :=
  ⟨[("Status", ⟨"single_select", sample_options⟩), ("Rcpt", ⟨"text", []⟩)],
    [sample_row]⟩

/-- The same source table with the Sent option missing from the trigger
field. -/
def sample_table_no_sent : Table :=
  ⟨[("Status", ⟨"single_select", [⟨"q1", "Queued"⟩, ⟨"p1", "In Progress"⟩]⟩),
      ("Rcpt", ⟨"text", []⟩)], [sample_row]⟩

/-- A configuration pointing at the sample table's fields, with a template
URL present and trigger-on-blank off. -/
def sample_config : Configuration :=
  ⟨7, "Status", false, "Rcpt", none, none, some "http://t", none⟩

/-- Effects where every external call succeeds. -/
def eff_all_ok : Nat → RowEffects := fun _ => ⟨true, true, true, true⟩

/-- Effects where the claim write (the In Progress update) fails. -/
def eff_claim_fails : Nat → RowEffects := fun _ => ⟨false, true, true, true⟩

/-- Effects where the mail send fails after a successful claim. -/
def eff_send_fails : Nat → RowEffects := fun _ => ⟨true, true, false, true⟩

/-! ## Helper lemmas -/

theorem split_chars_ne_nil (sep : Char) (l : List Char) : split_chars sep l ≠ [] := by
  induction l with
  | nil => simp [split_chars]
  | cons c rest ih =>
    simp only [split_chars]
    cases h : split_chars sep rest with
    | nil => simp
    | cons grp gs => by_cases hc : c = sep <;> simp [hc]

theorem split_chars_length (sep : Char) (l : List Char) :
    (split_chars sep l).length = l.count sep + 1 := by
  induction l with
  | nil => simp [split_chars]
  | cons c rest ih =>
    simp only [split_chars]
    cases h : split_chars sep rest with
    | nil => exact absurd h (split_chars_ne_nil sep rest)
    | cons grp gs =>
      rw [h] at ih
      simp only [List.length_cons] at ih
      by_cases hc : c = sep <;>
        simp [hc, List.count_cons, List.length_cons] <;> omega

theorem comma_delimited_eq_nil_iff (inp : Option String) :
    comma_delimited_to_list inp = [] ↔ (inp = none ∨ inp = some "") := by
  cases inp with
  | none => simp [comma_delimited_to_list]
  | some s =>
    by_cases hs : s = ""
    · subst hs
      simp [comma_delimited_to_list]
    · simp only [comma_delimited_to_list, if_neg hs]
      constructor
      · intro h
        exact absurd (List.map_eq_nil_iff.mp h) (split_chars_ne_nil ',' s.data)
      · intro h
        rcases h with h | h
        · exact absurd h (by simp)
        · exact absurd (Option.some.inj h) hs

theorem run_row_results_eq (t : Table) (cfg : Configuration) (eff : Nat → RowEffects) :
    (process_emailer_config t cfg eff).row_results = [] ∨
    (∃ q ip s, (process_emailer_config t cfg eff).resolved = some (q, ip, s) ∧
      (process_emailer_config t cfg eff).row_results =
        (process_emailer_config t cfg eff).fetched.map (fun r =>
          (r, process_row ip s (row_get r cfg.trigger_field)
                (row_get r cfg.recipient_field) (eff r.rid)))) := by
  unfold process_emailer_config
  repeat' split
  all_goals first
    | exact Or.inl rfl
    | exact Or.inr ⟨_, _, _, rfl, rfl⟩

theorem run_option_missing (t : Table) (cfg : Configuration) (eff : Nat → RowEffects)
    (fi : FieldInfo) (hfi : table_lookup_field t cfg.trigger_field = some fi)
    (hmiss : (get_option_id fi.options_details "Queued").toOption = none ∨
      (get_option_id fi.options_details "In Progress").toOption = none ∨
      (get_option_id fi.options_details "Sent").toOption = none) :
    (process_emailer_config t cfg eff).fetched = [] ∧
    (process_emailer_config t cfg eff).row_results = [] := by
  unfold process_emailer_config
  repeat' split
  all_goals first
    | exact ⟨rfl, rfl⟩
    | (exfalso; rcases hmiss with h | h | h <;> simp_all [Except.toOption])

theorem processed_mem_runner_loop (fails : Nat → Bool) (l : List Nat) (i : Nat)
    (hi : i ∈ l) : RunEvent.processed i ∈ runner_loop fails l := by
  induction l with
  | nil => simp at hi
  | cons j rest ih =>
    rcases List.mem_cons.mp hi with h | h
    · subst h
      simp [runner_loop]
    · simp only [runner_loop, List.mem_cons, List.mem_append]
      exact Or.inr (Or.inr (ih h))

theorem configFailed_mem_runner_loop (fails : Nat → Bool) (l : List Nat) (i : Nat)
    (hi : i ∈ l) (hf : fails i = true) :
    RunEvent.configFailed i ∈ runner_loop fails l := by
  induction l with
  | nil => simp at hi
  | cons j rest ih =>
    rcases List.mem_cons.mp hi with h | h
    · subst h
      simp [runner_loop, hf]
    · simp only [runner_loop, List.mem_cons, List.mem_append]
      exact Or.inr (Or.inr (ih h))

theorem collapse_row_error_of_empty (row : RowDict)
    (h : has_empty_list_field row = true) : (collapse_row row).toOption = none := by
  induction row with
  | nil => simp [has_empty_list_field] at h
  | cons p rest ih =>
    obtain ⟨k, v⟩ := p
    cases v with
    | prim s =>
      simp only [has_empty_list_field, List.any_cons, Bool.or_eq_true] at h
      rcases h with h | h
      · simp at h
      · have := ih h
        simp only [collapse_row]
        cases hc : collapse_row rest with
        | error e => simp [Except.map, Except.toOption]
        | ok r => rw [hc] at this; simp [Except.toOption] at this
    | arr xs =>
      cases xs with
      | nil => simp [collapse_row, Except.toOption]
      | cons x tl =>
        simp only [has_empty_list_field, List.any_cons, Bool.or_eq_true] at h
        rcases h with h | h
        · simp at h
        · have := ih h
          simp only [collapse_row]
          cases hc : collapse_row rest with
          | error e => simp [Except.map, Except.toOption]
          | ok r => rw [hc] at this; simp [Except.toOption] at this

theorem collapse_row_ok_of_clean (row : RowDict)
    (h : has_empty_list_field row = false) :
    collapse_row row = Except.ok (row.map (fun p => (p.1, collapse_field p.2))) := by
  induction row with
  | nil => simp [collapse_row]
  | cons p rest ih =>
    obtain ⟨k, v⟩ := p
    simp only [has_empty_list_field, List.any_cons, Bool.or_eq_false_iff] at h
    obtain ⟨h1, h2⟩ := h
    have hrest := ih h2
    cases v with
    | prim s => simp [collapse_row, hrest, Except.map, collapse_field]
    | arr xs =>
      cases xs with
      | nil => simp at h1
      | cons x tl => simp [collapse_row, hrest, Except.map, collapse_field]

theorem process_row_cases (ip s : String) (tv rv : Option String)
    (eff : RowEffects) :
    (eff.claim_ok = false ∧
      process_row ip s tv rv eff = ⟨tv, [], false⟩) ∨
    (eff.claim_ok = true ∧
      process_row ip s tv rv eff = ⟨some ip, [ip], false⟩) ∨
    (eff.claim_ok = true ∧
      process_row ip s tv rv eff = ⟨some ip, [ip], true⟩) ∨
    (eff.claim_ok = true ∧
      process_row ip s tv rv eff = ⟨some s, [ip, s], true⟩) := by
  rcases eff with ⟨c, re, se, f⟩
  cases c <;> cases re <;> cases se <;> cases f <;>
    by_cases hcd : (comma_delimited_to_list rv).isEmpty <;>
      simp [process_row, hcd]

theorem gac_error_of_mem (rows : List RowDict) (row : RowDict) (hmem : row ∈ rows)
    (h : has_empty_list_field row = true) :
    (get_active_configurations rows).toOption = none := by
  induction rows with
  | nil => simp at hmem
  | cons r rest ih =>
    rcases List.mem_cons.mp hmem with hh | hh
    · subst hh
      have herr := collapse_row_error_of_empty row h
      simp only [get_active_configurations]
      cases hc : collapse_row row with
      | error e => simp [Except.bind, Except.toOption]
      | ok v => rw [hc] at herr; simp [Except.toOption] at herr
    · simp only [get_active_configurations]
      cases hc : collapse_row r with
      | error e => simp [Except.bind, Except.toOption]
      | ok v =>
        have hrest := ih hh
        cases hg : get_active_configurations rest with
        | error e => simp [Except.bind, Except.map, Except.toOption]
        | ok vs => rw [hg] at hrest; simp [Except.toOption] at hrest

theorem gac_ok_of_clean (rows : List RowDict)
    (h : ∀ row ∈ rows, has_empty_list_field row = false) :
    get_active_configurations rows =
      Except.ok (rows.map (fun row =>
        row.map (fun p => (p.1, collapse_field p.2)))) := by
  induction rows with
  | nil => simp [get_active_configurations]
  | cons r rest ih =>
    have h1 := h r (List.mem_cons_self r rest)
    have h2 : ∀ row ∈ rest, has_empty_list_field row = false :=
      fun row hr => h row (List.mem_cons_of_mem r hr)
    simp [get_active_configurations, collapse_row_ok_of_clean r h1, ih h2,
      Except.bind, Except.map]

/-! ## Claims -/

/-- C3 (code bug): the claim says `send_email` raises for every mail-API
response whose status is not 202.  In the code, a non-202 status is logged
as a failure but only `response.raise_for_status()` is called, which raises
solely for 4xx/5xx statuses: a status such as 200 falls through and the
function returns normally, so the caller advances the row to Sent.  This
theorem evaluates the embedded response handling at the failing input
(status 200) and at the statuses the code does handle as the claim says. -/
theorem claim_C3_code_divergence :
    send_email_status 200 = Except.ok () ∧
    send_email_status 202 = Except.ok () ∧
    send_email_status 404 = Except.error "Failed to send email." ∧
    send_email_status 500 = Except.error "Failed to send email." :=
  ⟨rfl, rfl, rfl, rfl⟩

/-- C6: when the required environment configuration is missing (all six
variables absent or empty, matching the guard `not any([...])` and the
spec's "if all are absent"), `main` raises `ValueError` immediately: the
run's trace is exactly the fatal environment error, with no authentication
attempt and no configuration processed. -/
theorem claim_C6 (e : Env) (auth_ok load_ok : Bool) (n : Nat)
    (fails : Nat → Bool) (h : missing_env e = true) :
    main_run e auth_ok load_ok n fails = [RunEvent.fatalEnvError] ∧
    RunEvent.authAttempted ∉ main_run e auth_ok load_ok n fails ∧
    (∀ i, RunEvent.processed i ∉ main_run e auth_ok load_ok n fails) := by
  refine ⟨?_, ?_, ?_⟩ <;> simp [main_run, h]

/-- C6 witness: with every environment variable unset, the run aborts with
the fatal environment error. -/
theorem claim_C6_witness :
    missing_env ⟨none, none, none, none, none, none⟩ = true ∧
    main_run ⟨none, none, none, none, none, none⟩ true true 3 (fun _ => false) =
      [RunEvent.fatalEnvError] :=
  ⟨by decide, (claim_C6 ⟨none, none, none, none, none, none⟩ true true 3
      (fun _ => false) (by decide)).1⟩

/-- C8: an exception raised while processing configuration `i` is caught by
the per-configuration loop in `main` (the trace records the failure), and
every configuration of the run, the later ones included, is still
processed. -/
theorem claim_C8 (e : Env) (n : Nat) (fails : Nat → Bool) (i : Nat)
    (henv : missing_env e = false) (hf : fails i = true) (hi : i < n) :
    RunEvent.configFailed i ∈ main_run e true true n fails ∧
    (∀ j, j < n → RunEvent.processed j ∈ main_run e true true n fails) := by
  have hmain : main_run e true true n fails =
      RunEvent.authAttempted :: RunEvent.loadAttempted ::
        runner_loop fails (List.range n) := by
    simp [main_run, henv]
  rw [hmain]
  constructor
  · exact List.mem_cons_of_mem _ (List.mem_cons_of_mem _
      (configFailed_mem_runner_loop fails (List.range n) i
        (List.mem_range.mpr hi) hf))
  · intro j hj
    exact List.mem_cons_of_mem _ (List.mem_cons_of_mem _
      (processed_mem_runner_loop fails (List.range n) j (List.mem_range.mpr hj)))

/-- C8 witness: with two configurations where the first raises, the failure
is caught and the second is still processed. -/
theorem claim_C8_witness :
    missing_env ⟨some "cid", none, none, none, none, none⟩ = false ∧
    RunEvent.configFailed 0 ∈
      main_run ⟨some "cid", none, none, none, none, none⟩ true true 2
        (fun j => j == 0) ∧
    RunEvent.processed 1 ∈
      main_run ⟨some "cid", none, none, none, none, none⟩ true true 2
        (fun j => j == 0) :=
  ⟨by decide,
    (claim_C8 ⟨some "cid", none, none, none, none, none⟩ 2 (fun j => j == 0) 0
      (by decide) (by decide) (by decide)).1,
    (claim_C8 ⟨some "cid", none, none, none, none, none⟩ 2 (fun j => j == 0) 0
      (by decide) (by decide) (by decide)).2 1 (by decide)⟩

/-- C9: `comma_delimited_to_list` returns `[]` for every falsy input, the
empty string included, so a row whose recipient field holds `""` takes
exactly the same per-row transition as a row whose recipient field is
absent: skipped after the claim write. -/
theorem claim_C9 :
    comma_delimited_to_list none = [] ∧
    comma_delimited_to_list (some "") = [] ∧
    (∀ ip s tv eff, process_row ip s tv (some "") eff =
        process_row ip s tv none eff) :=
  ⟨rfl, rfl, fun _ _ _ _ => rfl⟩

/-- C10: `create_email_message` rewrites every space in a variable key to an
underscore — leading and trailing spaces included — so two keys whose
rewritten forms coincide (such as "a b" and "a_b") map to the same template
variable, and the later key's value overwrites the earlier one in the
rendering mapping. -/
theorem claim_C10 :
    replace_spaces " a b " = "_a_b_" ∧
    replace_spaces "a b" = replace_spaces "a_b" ∧
    (∀ k1 k2 v1 v2, replace_spaces k1 = replace_spaces k2 →
      dict_get (rename_variables [(k1, v1), (k2, v2)]) (replace_spaces k2) =
        some v2) := by
  refine ⟨rfl, rfl, fun k1 k2 v1 v2 h => ?_⟩
  rw [rename_variables, List.foldl_cons, List.foldl_cons, List.foldl_nil, h]
  simp [dict_insert, dict_get]

/-- C10 witness: the keys "a b" and "a_b" collide after space rewriting and
the later value wins. -/
theorem claim_C10_witness :
    replace_spaces "a b" = replace_spaces "a_b" ∧
    dict_get (rename_variables [("a b", some "1"), ("a_b", some "2")])
        (replace_spaces "a_b") = some (some "2") :=
  ⟨by decide, claim_C10.2.2 "a b" "a_b" (some "1") (some "2") (by decide)⟩

/-- C7: `get_active_configurations` returns `ok []` (not an error) for zero
active records; a record holding a field whose value is an empty list makes
the whole call raise; and a record with no empty-list field is collapsed
pointwise — every list-valued field is replaced by its first element and
every other field passes through unchanged. -/
theorem claim_C7 :
    get_active_configurations [] = Except.ok [] ∧
    (∀ rows row, row ∈ rows → has_empty_list_field row = true →
      (get_active_configurations rows).toOption = none) ∧
    (∀ rows, (∀ row ∈ rows, has_empty_list_field row = false) →
      get_active_configurations rows =
        Except.ok (rows.map (fun row =>
          row.map (fun p => (p.1, collapse_field p.2))))) :=
  ⟨rfl, gac_error_of_mem, gac_ok_of_clean⟩

/-- C7 witness: a record whose template field holds an empty list makes the
load raise, while a clean record has its list field collapsed to its first
element and its primitive field kept. -/
theorem claim_C7_witness :
    (get_active_configurations [[("Message Template", BValue.arr [])]]).toOption =
      none ∧
    get_active_configurations
        [[("Active", BValue.prim "true"),
          ("Message Template", BValue.arr [BValue.prim "http://x"])]] =
      Except.ok [[("Active", BValue.prim "true"),
          ("Message Template", BValue.prim "http://x")]] :=
  ⟨claim_C7.2.1 _ _ (List.Mem.head _) rfl,
    by
      have h := claim_C7.2.2
        [[("Active", BValue.prim "true"),
          ("Message Template", BValue.arr [BValue.prim "http://x"])]]
        (by intro row hr; rw [List.mem_singleton.mp hr]; rfl)
      simpa [collapse_field] using h⟩

/-- C5 counterexample: the claim says the parsed recipient list contains no
empty strings, but `comma_delimited_to_list` only strips each item — it
never drops empty entries, so "a,,b" parses to a list containing "". -/
theorem claim_C5_counterexample :
    comma_delimited_to_list (some "a,,b") = ["a", "", "b"] ∧
    "" ∈ comma_delimited_to_list (some "a,,b") := by
  refine ⟨rfl, ?_⟩
  rw [show comma_delimited_to_list (some "a,,b") = ["a", "", "b"] from rfl]
  exact List.mem_cons_of_mem _ (List.Mem.head _)

/-- C5 (amended): parsing splits on commas and trims whitespace from each
entry, but keeps empty-string entries (for a truthy input the parsed list
always has exactly one more entry than the input has commas, and it is
empty exactly for an absent or empty-string field); whenever that list is
empty the row is skipped after the claim — left at In Progress with no
email sent. -/
theorem claim_C5_amended :
    (∀ inp, comma_delimited_to_list inp = [] ↔ (inp = none ∨ inp = some "")) ∧
    (∀ s, s ≠ "" →
      (comma_delimited_to_list (some s)).length = s.data.count ',' + 1) ∧
    (∀ ip s tv rv eff, eff.claim_ok = true → eff.render_ok = true →
      comma_delimited_to_list rv = [] →
      process_row ip s tv rv eff =
        { final := some ip, writes := [ip], email_sent := false }) := by
  refine ⟨comma_delimited_eq_nil_iff, fun s hs => ?_, ?_⟩
  · simp [comma_delimited_to_list, hs, split_chars_length]
  · intro ip s tv rv eff hc hr hempty
    simp [process_row, hc, hr, hempty]

/-- C5 witness: "a, b ,c" keeps its three trimmed entries, the empty string
parses to no recipients, and an empty recipient list leaves the claimed row
at In Progress with no email sent. -/
theorem claim_C5_amended_witness :
    (comma_delimited_to_list (some "a, b ,c")).length = 2 + 1 ∧
    comma_delimited_to_list (some "") = [] ∧
    process_row "p1" "s1" (some "q1") none ⟨true, true, true, true⟩ =
      { final := some "p1", writes := ["p1"], email_sent := false } :=
  ⟨by
    have h := claim_C5_amended.2.1 "a, b ,c" (by decide)
    simpa using h,
   (claim_C5_amended.1 (some "")).mpr (Or.inr rfl),
   claim_C5_amended.2.2 "p1" "s1" (some "q1") none ⟨true, true, true, true⟩
     rfl rfl rfl⟩

/-- C4: a configuration whose trigger field lacks one of the options
labelled Queued, In Progress, or Sent performs zero writes to any row of
the source table: option resolution aborts the configuration (raising out
of `get_option_id`) before any row is fetched, so the run's fetched set and
its per-row outcomes are both empty. -/
theorem claim_C4 (t : Table) (cfg : Configuration) (eff : Nat → RowEffects)
    (fi : FieldInfo) (hfi : table_lookup_field t cfg.trigger_field = some fi)
    (hmiss : (get_option_id fi.options_details "Queued").toOption = none ∨
      (get_option_id fi.options_details "In Progress").toOption = none ∨
      (get_option_id fi.options_details "Sent").toOption = none) :
    (process_emailer_config t cfg eff).fetched = [] ∧
    (process_emailer_config t cfg eff).row_results = [] := by
  unfold process_emailer_config
  repeat' split
  all_goals first
    | exact ⟨rfl, rfl⟩
    | (exfalso; rcases hmiss with h | h | h <;> simp_all [Except.toOption])

/-- C4 witness: with the Sent option missing from the trigger field, the run
fetches no row and writes nothing, even though a queued row exists. -/
theorem claim_C4_witness :
    table_lookup_field sample_table_no_sent "Status" =
      some ⟨"single_select", [⟨"q1", "Queued"⟩, ⟨"p1", "In Progress"⟩]⟩ ∧
    (get_option_id [⟨"q1", "Queued"⟩, ⟨"p1", "In Progress"⟩] "Sent").toOption =
      none ∧
    (process_emailer_config sample_table_no_sent sample_config eff_all_ok).fetched =
      [] ∧
    (process_emailer_config sample_table_no_sent sample_config
      eff_all_ok).row_results = [] :=
  ⟨by decide, by decide,
    (claim_C4 sample_table_no_sent sample_config eff_all_ok
      ⟨"single_select", [⟨"q1", "Queued"⟩, ⟨"p1", "In Progress"⟩]⟩
      (by decide) (Or.inr (Or.inr (by decide)))).1,
    (claim_C4 sample_table_no_sent sample_config eff_all_ok
      ⟨"single_select", [⟨"q1", "Queued"⟩, ⟨"p1", "In Progress"⟩]⟩
      (by decide) (Or.inr (Or.inr (by decide)))).2⟩

/-- C1 counterexample: the claim says no fetched row is left at Queued, but
when the claim write fails the loop moves on and the row keeps its original
Queued value: with one queued row and a failing In Progress write, the run
completes and the row's final trigger value is still the Queued id. -/
theorem claim_C1_counterexample :
    (process_emailer_config sample_table sample_config eff_claim_fails).resolved =
      some ("q1", "p1", "s1") ∧
    (process_emailer_config sample_table sample_config eff_claim_fails).row_results =
      [(sample_row, ⟨some "q1", [], false⟩)] ∧
    ("q1" : String) ≠ "p1" ∧ ("q1" : String) ≠ "s1" := by
  refine ⟨by decide, by decide, by decide, by decide⟩

/-- C1 (amended): every fetched row whose claim write succeeds ends the run
with its trigger field at exactly the In Progress or the Sent identifier;
a fetched row whose claim write fails keeps its original trigger value
(possibly Queued or blank) — the loop moves on without touching it. -/
theorem claim_C1_amended (t : Table) (cfg : Configuration)
    (eff : Nat → RowEffects) (q ip s : String)
    (hres : (process_emailer_config t cfg eff).resolved = some (q, ip, s))
    (p : Row × RowOutcome)
    (hp : p ∈ (process_emailer_config t cfg eff).row_results) :
    ((eff p.1.rid).claim_ok = true →
      (p.2.final = some ip ∨ p.2.final = some s)) ∧
    ((eff p.1.rid).claim_ok = false →
      p.2.final = row_get p.1 cfg.trigger_field) := by
  rcases run_row_results_eq t cfg eff with h | ⟨q2, ip2, s2, hres2, heq⟩
  · rw [h] at hp
    simp at hp
  · rw [hres2] at hres
    simp only [Option.some.injEq, Prod.mk.injEq] at hres
    obtain ⟨rfl, rfl, rfl⟩ := hres
    rw [heq] at hp
    obtain ⟨r, hr, hpr⟩ := List.mem_map.mp hp
    subst hpr
    rcases process_row_cases ip2 s2 (row_get r cfg.trigger_field)
        (row_get r cfg.recipient_field) (eff r.rid) with
      ⟨hc, hpr⟩ | ⟨hc, hpr⟩ | ⟨hc, hpr⟩ | ⟨hc, hpr⟩ <;>
      rw [hpr] <;> constructor <;> intro hcc <;> simp_all

/-- C1 witness: with every effect succeeding, the single queued row of the
sample table ends the run at the Sent identifier. -/
theorem claim_C1_amended_witness :
    (process_emailer_config sample_table sample_config eff_all_ok).resolved =
      some ("q1", "p1", "s1") ∧
    (sample_row, ⟨some "s1", ["p1", "s1"], true⟩) ∈
      (process_emailer_config sample_table sample_config eff_all_ok).row_results ∧
    ((⟨some "s1", ["p1", "s1"], true⟩ : RowOutcome).final = some "p1" ∨
      (⟨some "s1", ["p1", "s1"], true⟩ : RowOutcome).final = some "s1") :=
  ⟨by decide, by decide,
    (claim_C1_amended sample_table sample_config eff_all_ok "q1" "p1" "s1"
      (by decide) (sample_row, ⟨some "s1", ["p1", "s1"], true⟩) (by decide)).1
      (by decide)⟩

/-- C2: for every row processed by the per-row transition, the Sent
identifier is only ever written after the In Progress identifier was
successfully written to that row (the row's successful writes are exactly
[In Progress, Sent] whenever Sent is among them); every write is one of the
In Progress or Sent identifiers, so no failure path writes the row back to
Queued; and a failure after a successful claim leaves the row at In
Progress. -/
theorem claim_C2 (t : Table) (cfg : Configuration) (eff : Nat → RowEffects)
    (q ip s : String)
    (hres : (process_emailer_config t cfg eff).resolved = some (q, ip, s))
    (p : Row × RowOutcome)
    (hp : p ∈ (process_emailer_config t cfg eff).row_results) :
    (ip ≠ s → s ∈ p.2.writes → p.2.writes = [ip, s]) ∧
    (∀ w ∈ p.2.writes, w = ip ∨ w = s) ∧
    (q ≠ ip → q ≠ s → q ∉ p.2.writes) ∧
    ((eff p.1.rid).claim_ok = true → p.2.final ≠ some s →
      p.2.final = some ip) := by
  rcases run_row_results_eq t cfg eff with h | ⟨q2, ip2, s2, hres2, heq⟩
  · rw [h] at hp
    simp at hp
  · rw [hres2] at hres
    simp only [Option.some.injEq, Prod.mk.injEq] at hres
    obtain ⟨rfl, rfl, rfl⟩ := hres
    rw [heq] at hp
    obtain ⟨r, hr, hpr⟩ := List.mem_map.mp hp
    subst hpr
    rcases process_row_cases ip2 s2 (row_get r cfg.trigger_field)
        (row_get r cfg.recipient_field) (eff r.rid) with
      ⟨hc, hpr⟩ | ⟨hc, hpr⟩ | ⟨hc, hpr⟩ | ⟨hc, hpr⟩ <;>
      rw [hpr] <;> refine ⟨?_, ?_, ?_, ?_⟩ <;> intros <;> simp_all

/-- C2 witness: with the send failing after a successful claim, the sample
row's only successful write is the In Progress identifier and it ends the
run at In Progress — never written back to Queued, never advanced to
Sent. -/
theorem claim_C2_witness :
    (process_emailer_config sample_table sample_config eff_send_fails).resolved =
      some ("q1", "p1", "s1") ∧
    (sample_row, ⟨some "p1", ["p1"], false⟩) ∈
      (process_emailer_config sample_table sample_config eff_send_fails).row_results ∧
    (∀ w ∈ (⟨some "p1", ["p1"], false⟩ : RowOutcome).writes,
      w = "p1" ∨ w = "s1") ∧
    (("q1" : String) ∉ (⟨some "p1", ["p1"], false⟩ : RowOutcome).writes) ∧
    (⟨some "p1", ["p1"], false⟩ : RowOutcome).final = some "p1" :=
  ⟨by decide, by decide,
    (claim_C2 sample_table sample_config eff_send_fails "q1" "p1" "s1"
      (by decide) (sample_row, ⟨some "p1", ["p1"], false⟩) (by decide)).2.1,
    (claim_C2 sample_table sample_config eff_send_fails "q1" "p1" "s1"
      (by decide) (sample_row, ⟨some "p1", ["p1"], false⟩) (by decide)).2.2.1
      (by decide) (by decide),
    (claim_C2 sample_table sample_config eff_send_fails "q1" "p1" "s1"
      (by decide) (sample_row, ⟨some "p1", ["p1"], false⟩) (by decide)).2.2.2
      (by decide) (by decide)⟩

end BaserowEmailer
